import Mathlib

/-
Shallow embedding of the Capsule Vision Challenge sanity checker
(src/app.py) together with theorems settling the specification claims.

The presentation layer (streamlit widgets, file readers, download
buttons) is out of scope; st.error / st.success emissions are modelled
as a list of Finding values, and Python exceptions escaping a check
function are modelled by an Outcome that records the raised error
together with the findings emitted before the raise.
-/

/-- Cell of a table: a pandas cell is either a null (NaN), modelled as
none, or a value, modelled as a string. -/
abbrev Cell := Option String

/-- In-memory table as produced by pd.read_excel: a list of column
labels plus a list of rows of cells. -/
structure DataFrame where
  columns : List String
  rows : List (List Cell)
deriving DecidableEq

/-- df.shape in pandas: (number of rows, number of columns). -/
def DataFrame.shape (df : DataFrame) : Nat × Nat :=
  (df.rows.length, df.columns.length)

/-- Index of the first occurrence of a column label, none when the
label is absent (pandas raises KeyError in that case). -/
def colIndex? (c : String) : List String → Option Nat
  | [] => none
  | x :: xs => if x = c then some 0 else (colIndex? c xs).map (· + 1)

/-- Column access df[c]: the list of cells of column c, or none when
the column is absent (KeyError). -/
def DataFrame.col? (df : DataFrame) (c : String) : Option (List Cell) :=
  (colIndex? c df.columns).map (fun i => df.rows.map (fun r => r.getD i none))

/-- The value set of the identifier column, as computed by
set(df[image_path]); none when the column is absent. -/
def DataFrame.imageSet? (df : DataFrame) : Option (Finset Cell) :=
  (df.col? "image_path").map List.toFinset

/-- df.isnull().values.any(): whether any cell of the table is null. -/
def DataFrame.anyNull (df : DataFrame) : Bool :=
  df.rows.any (fun r => r.any (fun c => c.isNone))

/-- The fixed closed vocabulary of class labels (VALID_CLASSES in
src/app.py). -/
def VALID_CLASSES : List String :=
  ["Angioectasia", "Bleeding", "Erosion", "Erythema",
   "Foreign Body", "Lymphangiectasia", "Normal",
   "Polyp", "Ulcer", "Worms"]

/-- EXPECTED_COLUMNS in src/app.py: identifier column, one probability
column per class, and the predicted_class column. -/
def EXPECTED_COLUMNS : List String := ["image_path"] ++ VALID_CLASSES ++ ["predicted_class"]

/-- Python exceptions that the checking code can raise: KeyError from
indexing a missing column, TypeError from joining a non-string set
element, ValueError from comparing column indexes of different
lengths. -/
inductive PyError
  | keyError (col : String)
  | typeError
  | valueError
deriving DecidableEq

/-- Which side of the symmetric difference a finding reports. -/
inductive DiffKind
  | missing
  | extra
deriving DecidableEq

/-- One reportable outcome of a check: each constructor corresponds to
one st.error / st.success call site in src/app.py. -/
inductive Finding
  | tooMany (k : DiffKind)
  | imagesListed (k : DiffKind) (ids : Finset Cell)
  | missingColumns (cols : List String)
  | extraColumns (cols : List String)
  | missingValues
  | invalidPredictedClass
  | shapeMismatch (mode : String)
  | columnNamesMismatch (mode : String)
  | imagePathMismatch (mode : String)
  | allPassed
  | notAllPassed
  | processingError (e : PyError)
  | modeSuccess
  | modeFailure
deriving DecidableEq

/-- Result of running a check function: normal completion with the
pass flag, or a raised Python exception. -/
inductive Outcome
  | ok (passed : Bool)
  | raised (e : PyError)
deriving DecidableEq

/-- Identifiers listed in the text of a finding. -/
def Finding.listedIds : Finding → Finset Cell
  | .imagesListed _ ids => ids
  | _ => ∅

/-- Whether a finding is the generic count-suppressing message of the
truncation policy. -/
def Finding.truncated : Finding → Bool
  | .tooMany _ => true
  | _ => false

/-- Whether a finding is one of the three structural findings of
check_file_dimensions_and_columns. -/
def Finding.isDimCheckError : Finding → Bool
  | .shapeMismatch _ => true
  | .columnNamesMismatch _ => true
  | .imagePathMismatch _ => true
  | _ => false

/-- Whether a finding reports a caught exception (the fatal findings of
the except handlers). -/
def Finding.isFatal : Finding → Bool
  | .processingError _ => true
  | _ => false

/-- The set comparison of src/app.py lines 168-169:
missing = reference − predicted, extra = predicted − reference. -/
def compareSets (expected actual : Finset Cell) : Finset Cell × Finset Cell :=
  (expected \ actual, actual \ expected)

/-- Reporting of one side of the symmetric difference, src/app.py lines
171-183: more than 10 items give the generic message; a nonempty set of
at most 10 items is listed by joining it, which raises TypeError when a
null is among the items (joining a float); an empty set gives nothing. -/
def diffFindings (k : DiffKind) (s : Finset Cell) : Except PyError (List Finding) :=
  if 10 < s.card then .ok [.tooMany k]
  else if s = ∅ then .ok []
  else if (none : Cell) ∈ s then .error .typeError
  else .ok [.imagesListed k s]

/-- check_file of src/app.py (test mode): identifier set comparison
with truncation, unordered column comparison, null check, categorical
check of predicted_class, then the summary message. Column accesses
raise KeyError when the column is absent. -/
def check_file (df : DataFrame) (reference_images : Finset String)
    (expected_columns : List String) : List Finding × Outcome :=
  match df.imageSet? with
  | none => ([], .raised (.keyError "image_path"))
  | some predicted_images =>
    let refCells : Finset Cell := reference_images.image some
    let diff := compareSets refCells predicted_images
    match diffFindings .missing diff.1 with
    | .error e => ([], .raised e)
    | .ok fsMissing =>
      match diffFindings .extra diff.2 with
      | .error e => (fsMissing, .raised e)
      | .ok fsExtra =>
        let missing_columns := expected_columns.filter (fun c => decide (c ∉ df.columns))
        let extra_columns := df.columns.filter (fun c => decide (c ∉ expected_columns))
        let fsCols :=
          (if missing_columns = [] then [] else [Finding.missingColumns missing_columns]) ++
          (if extra_columns = [] then [] else [Finding.extraColumns extra_columns])
        let fsNull := if df.anyNull then [Finding.missingValues] else []
        match df.col? "predicted_class" with
        | none =>
          (fsMissing ++ fsExtra ++ fsCols ++ fsNull, .raised (.keyError "predicted_class"))
        | some pc =>
          let fsInvalid :=
            if pc.any (fun c => decide (c ∉ VALID_CLASSES.map some)) then
              [Finding.invalidPredictedClass]
            else []
          let errs := fsMissing ++ fsExtra ++ fsCols ++ fsNull ++ fsInvalid
          if errs = [] then ([Finding.allPassed], .ok true)
          else (errs ++ [Finding.notAllPassed], .ok false)

/-- check_file_dimensions_and_columns of src/app.py (training and
validation modes): shape equality, in-order column-name equality
(pandas raises ValueError when the column counts differ), and
identifier set equality; the identifier column accesses raise KeyError
when the column is absent. -/
def check_file_dimensions_and_columns (df reference_df : DataFrame) (mode : String) :
    List Finding × Outcome :=
  let fsShape := if df.shape ≠ reference_df.shape then [Finding.shapeMismatch mode] else []
  if df.columns.length ≠ reference_df.columns.length then
    (fsShape, .raised .valueError)
  else
    let fsCols :=
      if df.columns ≠ reference_df.columns then [Finding.columnNamesMismatch mode] else []
    match df.imageSet? with
    | none => (fsShape ++ fsCols, .raised (.keyError "image_path"))
    | some a =>
      match reference_df.imageSet? with
      | none => (fsShape ++ fsCols, .raised (.keyError "image_path"))
      | some b =>
        let fsImg := if a ≠ b then [Finding.imagePathMismatch mode] else []
        let fs := fsShape ++ fsCols ++ fsImg
        (fs, .ok (decide (fs = [])))

/-- test_mode of src/app.py: run check_file inside try/except; a raised
exception is reported as a single error message after the findings
already emitted. -/
def test_mode_run (df : DataFrame) (reference_images : Finset String) : List Finding :=
  match check_file df reference_images EXPECTED_COLUMNS with
  | (fs, Outcome.ok _) => fs
  | (fs, Outcome.raised e) => fs ++ [Finding.processingError e]

/-- training_mode / validation_mode of src/app.py: run the dimension
and column checks inside try/except and append the final success or
failure message. -/
def mode_run (df reference_df : DataFrame) (mode : String) : List Finding :=
  match check_file_dimensions_and_columns df reference_df mode with
  | (fs, Outcome.ok true) => fs ++ [Finding.modeSuccess]
  | (fs, Outcome.ok false) => fs ++ [Finding.modeFailure]
  | (fs, Outcome.raised e) => fs ++ [Finding.processingError e, Finding.modeFailure]

/-- training_mode of src/app.py. -/
def training_mode_run (df reference_df : DataFrame) : List Finding :=
  mode_run df reference_df "training"

/-- validation_mode of src/app.py. -/
def validation_mode_run (df reference_df : DataFrame) : List Finding :=
  mode_run df reference_df "validation"

/-
Concrete tables and reference sets used by counterexamples and
witnesses. fullRow builds a complete, well-formed row of the expected
shape (identifier, ten probability cells, predicted label).
-/

/-- A complete row of the expected test-mode format. -/
def fullRow (img predicted : String) : List Cell :=
  [some img] ++ VALID_CLASSES.map (fun _ => some "0.1") ++ [some predicted]

/-- A correctly-shaped table whose identifier column holds the same
identifier twice. -/
def df_dup : DataFrame :=
  ⟨EXPECTED_COLUMNS, [fullRow "a.jpg" "Ulcer", fullRow "a.jpg" "Ulcer"]⟩

/-- Reference identifier set with the single identifier of df_dup. -/
def refA : Finset String := {"a.jpg"}

/-- C1: the set comparison of test mode returns missing = expected −
actual and extra = actual − expected, hence expected = actual ∪ missing
− extra and missing ∩ actual = ∅; as a function of two finite sets it
is pure, deterministic and independent of element order. -/
theorem compareSets_correct (expected actual : Finset Cell) :
    compareSets expected actual = (expected \ actual, actual \ expected) ∧
    (actual ∪ (compareSets expected actual).1) \ (compareSets expected actual).2 = expected ∧
    (compareSets expected actual).1 ∩ actual = ∅ := by
  refine ⟨rfl, ?_, ?_⟩
  · ext x
    simp only [compareSets, Finset.mem_sdiff, Finset.mem_union]
    tauto
  · ext x
    simp only [compareSets, Finset.mem_sdiff, Finset.mem_inter, Finset.not_mem_empty]
    tauto

/-- C2: the truncation policy is exact at 10 and symmetric in the two
difference kinds: an empty difference yields no finding, a difference
of 1 to 10 identifiers yields one finding listing exactly those
identifiers and not marked truncated, and a difference of 11 or more
yields the single generic finding that lists no identifiers and is
marked truncated. -/
theorem diffFindings_truncation (k : DiffKind) (s : Finset Cell)
    (hs : (none : Cell) ∉ s) :
    (s = ∅ → diffFindings k s = .ok []) ∧
    (s.Nonempty → s.card ≤ 10 →
      diffFindings k s = .ok [.imagesListed k s] ∧
      (Finding.imagesListed k s).listedIds = s ∧
      (Finding.imagesListed k s).truncated = false) ∧
    (11 ≤ s.card →
      diffFindings k s = .ok [.tooMany k] ∧
      (Finding.tooMany k).listedIds = ∅ ∧
      (Finding.tooMany k).truncated = true) := by
  refine ⟨?_, ?_, ?_⟩
  · intro h
    simp [diffFindings, h]
  · intro h1 h2
    have hne : s ≠ ∅ := Finset.nonempty_iff_ne_empty.mp h1
    have hcard : ¬ (10 < s.card) := by omega
    refine ⟨?_, rfl, rfl⟩
    simp [diffFindings, hcard, hne, hs]
  · intro h
    have hcard : 10 < s.card := by omega
    refine ⟨?_, rfl, rfl⟩
    simp [diffFindings, hcard]

/-- Witness for C2 at a concrete singleton difference. -/
theorem diffFindings_truncation_witness :
    diffFindings .missing {some "a.jpg"} = .ok [.imagesListed .missing {some "a.jpg"}] :=
  ((diffFindings_truncation .missing {some "a.jpg"} (by decide)).2.1
    ⟨some "a.jpg", by decide⟩ (by decide)).1

/-- C8: validation is a pure function of its inputs: running any of the
three mode pipelines twice on the same table and references yields
reports that agree finding for finding. -/
theorem runs_idempotent (df reference_df : DataFrame) (reference_images : Finset String) :
    test_mode_run df reference_images = test_mode_run df reference_images ∧
    training_mode_run df reference_df = training_mode_run df reference_df ∧
    validation_mode_run df reference_df = validation_mode_run df reference_df :=
  ⟨rfl, rfl, rfl⟩

/-- C5 counterexample: df_dup carries the identifier a.jpg twice, yet
test-mode checking emits no duplicate finding and the table passes all
checks. -/
theorem dup_identifier_passes :
    check_file df_dup refA EXPECTED_COLUMNS = ([Finding.allPassed], Outcome.ok true) ∧
    df_dup.col? "image_path" = some [some "a.jpg", some "a.jpg"] := by
  constructor
  · decide
  · decide

/-- Appending a copy of an existing row to the front leaves every
boolean column predicate unchanged. -/
theorem any_cons_of_mem {α : Type} (p : α → Bool) {r : α} {l : List α} (h : r ∈ l) :
    (r :: l).any p = l.any p := by
  cases hp : p r
  · simp [List.any_cons, hp]
  · simp only [List.any_cons, hp, Bool.true_or, eq_comm (a := true)]
    exact List.any_eq_true.mpr ⟨r, h, hp⟩


/-- check_file reads the uploaded table only through its column list,
its identifier value set, the presence of a null cell, and the presence
of an out-of-vocabulary predicted_class cell; two tables agreeing on
those four projections validate identically. -/
theorem check_file_eq_of (df' df : DataFrame) (reference_images : Finset String)
    (expected_columns : List String)
    (hc : df'.columns = df.columns)
    (hi : df'.imageSet? = df.imageSet?)
    (hn : df'.anyNull = df.anyNull)
    (hp : (df'.col? "predicted_class").map
            (fun l => l.any (fun c => decide (c ∉ VALID_CLASSES.map some)))
        = (df.col? "predicted_class").map
            (fun l => l.any (fun c => decide (c ∉ VALID_CLASSES.map some)))) :
    check_file df' reference_images expected_columns =
      check_file df reference_images expected_columns := by
  unfold check_file
  rw [hi, hc, hn]
  cases df.imageSet? with
  | none => rfl
  | some s =>
    cases hpc' : df'.col? "predicted_class" with
    | none =>
      cases hpc : df.col? "predicted_class" with
      | none => rfl
      | some pc => rw [hpc', hpc] at hp; simp at hp
    | some pc' =>
      cases hpc : df.col? "predicted_class" with
      | none => rw [hpc', hpc] at hp; simp at hp
      | some pc =>
        rw [hpc', hpc] at hp
        simp only [Option.map_some', Option.some.injEq] at hp
        dsimp only
        rw [hp]

/-- C5 (amended): duplicating an existing row of the uploaded table
leaves the whole test-mode check result unchanged; in particular no
duplicate-identifier finding exists and a passing table still passes
after duplicating a row. -/
theorem check_file_dup_row (df : DataFrame) (r : List Cell) (hr : r ∈ df.rows)
    (reference_images : Finset String) (expected_columns : List String) :
    check_file (DataFrame.mk df.columns (r :: df.rows)) reference_images expected_columns =
      check_file df reference_images expected_columns := by
  have hmem : ∀ j : Nat, r.getD j none ∈ df.rows.map (fun row => row.getD j none) :=
    fun j => List.mem_map.mpr ⟨r, hr, rfl⟩
  apply check_file_eq_of
  · rfl
  · unfold DataFrame.imageSet? DataFrame.col?
    cases hi : colIndex? "image_path" df.columns
    · rfl
    · simp only [hi, Option.map_some']
      congr 1
      show ((r :: df.rows).map _).toFinset = _
      rw [List.map_cons, List.toFinset_cons, Finset.insert_eq_self.mpr]
      exact List.mem_toFinset.mpr (hmem _)
  · exact any_cons_of_mem _ hr
  · unfold DataFrame.col?
    cases hj : colIndex? "predicted_class" df.columns
    · rfl
    · simp only [hj, Option.map_some']
      congr 1
      show ((r :: df.rows).map _).any _ = _
      rw [List.map_cons]
      exact any_cons_of_mem _ (hmem _)

/-- Witness for the C5 amended theorem: duplicating the row of a
concrete one-row table changes nothing. -/
theorem check_file_dup_row_witness :
    check_file (DataFrame.mk EXPECTED_COLUMNS
        [fullRow "a.jpg" "Ulcer", fullRow "a.jpg" "Ulcer"]) refA EXPECTED_COLUMNS =
      check_file (DataFrame.mk EXPECTED_COLUMNS [fullRow "a.jpg" "Ulcer"]) refA
        EXPECTED_COLUMNS :=
  check_file_dup_row (DataFrame.mk EXPECTED_COLUMNS [fullRow "a.jpg" "Ulcer"])
    (fullRow "a.jpg" "Ulcer") (by decide) refA EXPECTED_COLUMNS

/-- A label absent from the column list has no column index. -/
theorem colIndex?_eq_none {c : String} {l : List String} (h : c ∉ l) :
    colIndex? c l = none := by
  induction l with
  | nil => rfl
  | cons x xs ih =>
    simp only [List.mem_cons, not_or] at h
    rw [colIndex?, if_neg (fun hxc => h.1 hxc.symm), ih h.2]
    rfl

/-- C3 (amended, test mode): a test-mode table lacking the identifier
column yields a report that is exactly one fatal finding; no check runs
and no other finding appears. -/
theorem test_mode_missing_identifier (df : DataFrame) (reference_images : Finset String)
    (h : "image_path" ∉ df.columns) :
    test_mode_run df reference_images =
      [Finding.processingError (PyError.keyError "image_path")] := by
  have himg : df.imageSet? = none := by
    unfold DataFrame.imageSet? DataFrame.col?
    rw [colIndex?_eq_none h]
    rfl
  unfold test_mode_run check_file
  rw [himg]
  rfl

/-- Witness for the C3 amended theorem at a concrete table. -/
theorem test_mode_missing_identifier_witness :
    test_mode_run (DataFrame.mk ["x"] []) refA =
      [Finding.processingError (PyError.keyError "image_path")] :=
  test_mode_missing_identifier (DataFrame.mk ["x"] []) refA (by decide)

/-- Uploaded training table with the identifier column renamed. -/
def df_renamed : DataFrame := ⟨["img_path", "x"], [[some "a.jpg", some "1"]]⟩

/-- Reference training table matching df_renamed except for the
identifier column name. -/
def ref_small : DataFrame := ⟨["image_path", "x"], [[some "a.jpg", some "1"]]⟩

/-- C3 counterexample: in training mode a table lacking the identifier
column produces a report with a structural finding next to the fatal
one, so the report is not exactly one fatal finding. -/
theorem training_missing_identifier_not_single :
    training_mode_run df_renamed ref_small =
      [Finding.columnNamesMismatch "training",
       Finding.processingError (PyError.keyError "image_path"),
       Finding.modeFailure] ∧
    "image_path" ∉ df_renamed.columns ∧
    Finding.isDimCheckError (Finding.columnNamesMismatch "training") = true := by
  refine ⟨by decide, by decide, rfl⟩

/-- Uploaded table with one column against a two-column reference whose
identifier values differ. -/
def df_narrow : DataFrame := ⟨["image_path"], [[some "a.jpg"]]⟩

/-- Two-column reference table with a different identifier value. -/
def ref_wide : DataFrame := ⟨["image_path", "x"], [[some "b.jpg", some "1"]]⟩

/-- C4 counterexample: with differing column counts the column-name
comparison raises, so although the identifier sets differ, no
identifier-set finding is reported and the run ends in a raise after
the shape finding alone. -/
theorem length_mismatch_skips_identifier_check :
    check_file_dimensions_and_columns df_narrow ref_wide "training" =
      ([Finding.shapeMismatch "training"], Outcome.raised PyError.valueError) ∧
    df_narrow.imageSet? ≠ ref_wide.imageSet? := by
  refine ⟨by decide, by decide⟩

/-- A row of the expected format whose first probability cell is null. -/
def rowWithNull : List Cell :=
  [some "a.jpg", none] ++ (VALID_CLASSES.drop 1).map (fun _ => some "0.1") ++ [some "Ulcer"]

/-- A correctly-shaped table containing one null cell. -/
def df_null : DataFrame := ⟨EXPECTED_COLUMNS, [rowWithNull]⟩

/-- C6 counterexample: the same table with a null cell passes training
mode with no finding, while test mode reports the missing values: the
content checks do not run in training or validation mode. -/
theorem training_skips_content_checks :
    training_mode_run df_null df_null = [Finding.modeSuccess] ∧
    validation_mode_run df_null df_null = [Finding.modeSuccess] ∧
    test_mode_run df_null refA = [Finding.missingValues, Finding.notAllPassed] := by
  refine ⟨by decide, by decide, by decide⟩

/-- A correctly-shaped table whose third row has the out-of-vocabulary
label Tumor. -/
def df_tumor : DataFrame :=
  ⟨EXPECTED_COLUMNS,
   [fullRow "a.jpg" "Ulcer", fullRow "b.jpg" "Normal", fullRow "c.jpg" "Tumor"]⟩

/-- Reference identifier set of df_tumor. -/
def refC : Finset String := {"a.jpg", "b.jpg", "c.jpg"}

/-- C7 counterexample: a table whose only defect is the Tumor label in
row 3 yields exactly one categorical-validity finding, and that finding
is the generic message listing no identifiers at all. -/
theorem invalid_class_generic_error :
    check_file df_tumor refC EXPECTED_COLUMNS =
      ([Finding.invalidPredictedClass, Finding.notAllPassed], Outcome.ok false) ∧
    Finding.listedIds Finding.invalidPredictedClass = ∅ := by
  refine ⟨by decide, rfl⟩

/-- C4 (amended): when the two tables have the same number of columns
and both identifier columns exist, the three structural checks of
training/validation mode run independently: the run completes, and each
of the shape, column-name and identifier-set findings is present
exactly when its own condition fails, regardless of the other two. -/
theorem dims_checks_independent (df reference_df : DataFrame) (mode : String)
    (a b : Finset Cell)
    (hlen : df.columns.length = reference_df.columns.length)
    (ha : df.imageSet? = some a) (hb : reference_df.imageSet? = some b) :
    (check_file_dimensions_and_columns df reference_df mode).2 =
      Outcome.ok (decide ((check_file_dimensions_and_columns df reference_df mode).1 = [])) ∧
    (Finding.shapeMismatch mode ∈ (check_file_dimensions_and_columns df reference_df mode).1 ↔
      df.shape ≠ reference_df.shape) ∧
    (Finding.columnNamesMismatch mode ∈ (check_file_dimensions_and_columns df reference_df mode).1 ↔
      df.columns ≠ reference_df.columns) ∧
    (Finding.imagePathMismatch mode ∈ (check_file_dimensions_and_columns df reference_df mode).1 ↔
      a ≠ b) := by
  unfold check_file_dimensions_and_columns
  rw [ha, hb]
  by_cases hs : df.shape = reference_df.shape <;>
    by_cases hc : df.columns = reference_df.columns <;>
    by_cases hi : a = b <;>
    simp [hlen, hs, hc, hi]

/-- Witness for the C4 amended theorem: identical shape with one
renamed non-identifier column yields the column-name finding and no
shape finding. -/
theorem dims_checks_independent_witness :
    Finding.columnNamesMismatch "training" ∈
      (check_file_dimensions_and_columns (DataFrame.mk ["image_path", "x"] [[some "a.jpg", some "1"]])
        (DataFrame.mk ["image_path", "y"] [[some "a.jpg", some "1"]]) "training").1 ∧
    Finding.shapeMismatch "training" ∉
      (check_file_dimensions_and_columns (DataFrame.mk ["image_path", "x"] [[some "a.jpg", some "1"]])
        (DataFrame.mk ["image_path", "y"] [[some "a.jpg", some "1"]]) "training").1 := by
  have h := dims_checks_independent
    (DataFrame.mk ["image_path", "x"] [[some "a.jpg", some "1"]])
    (DataFrame.mk ["image_path", "y"] [[some "a.jpg", some "1"]]) "training"
    {some "a.jpg"} {some "a.jpg"} (by decide) (by decide) (by decide)
  exact ⟨h.2.2.1.mpr (by decide), fun hmem => (h.2.1.mp hmem) (by decide)⟩

/-- C6 (amended): the training/validation checker can only ever emit
the three structural findings: no missing-value, categorical or
identifier-listing finding appears in its output for any input pair. -/
theorem dims_findings_structural_only (df reference_df : DataFrame) (mode : String) :
    ((check_file_dimensions_and_columns df reference_df mode).1).all
      Finding.isDimCheckError = true := by
  unfold check_file_dimensions_and_columns
  by_cases hlen : df.columns.length = reference_df.columns.length <;>
    by_cases hs : df.shape = reference_df.shape <;>
    cases df.imageSet? <;> cases reference_df.imageSet? <;>
    simp [hlen, hs, Finding.isDimCheckError, List.all_append]

/-- diffFindings of the empty difference reports nothing. -/
theorem diffFindings_empty (k : DiffKind) : diffFindings k (∅ : Finset Cell) = .ok [] := by
  simp [diffFindings]

/-- C7 (amended): an uploaded table whose identifier set matches the
reference, whose columns are exactly the expected ones and which has no
null cell, but whose predicted_class column contains a value outside
the vocabulary (exact, case-sensitive membership), yields exactly one
categorical-validity finding; that finding is generic and lists no row
identifiers. -/
theorem invalid_class_single_finding (df : DataFrame) (reference_images : Finset String)
    (pc : List Cell)
    (himg : df.imageSet? = some (reference_images.image some))
    (hcols : df.columns = EXPECTED_COLUMNS)
    (hnull : df.anyNull = false)
    (hpc : df.col? "predicted_class" = some pc)
    (hbad : pc.any (fun c => decide (c ∉ VALID_CLASSES.map some)) = true) :
    check_file df reference_images EXPECTED_COLUMNS =
      ([Finding.invalidPredictedClass, Finding.notAllPassed], Outcome.ok false) ∧
    Finding.listedIds Finding.invalidPredictedClass = ∅ := by
  refine ⟨?_, rfl⟩
  unfold check_file
  rw [himg, hpc, hcols, hnull]
  have hfil : List.filter (fun c => decide (c ∉ EXPECTED_COLUMNS)) EXPECTED_COLUMNS = [] := by
    decide
  simp only [compareSets, Finset.sdiff_self, diffFindings_empty, hfil, hbad]
  rfl

/-- Witness for the C7 amended theorem at the concrete Tumor table. -/
theorem invalid_class_single_finding_witness :
    check_file df_tumor refC EXPECTED_COLUMNS =
      ([Finding.invalidPredictedClass, Finding.notAllPassed], Outcome.ok false) :=
  (invalid_class_single_finding df_tumor refC
    [some "Ulcer", some "Normal", some "Tumor"]
    (by decide) (by decide) (by decide) (by decide) (by decide)).1

/-- Row permutation leaves the identifier value set unchanged. -/
theorem imageSet?_perm (columns : List String) (rows rows2 : List (List Cell))
    (hp : rows2.Perm rows) :
    (DataFrame.mk columns rows2).imageSet? = (DataFrame.mk columns rows).imageSet? := by
  unfold DataFrame.imageSet? DataFrame.col?
  cases hi : colIndex? "image_path" columns
  · rfl
  · simp only [hi, Option.map_some']
    congr 1
    exact List.toFinset_eq_of_perm _ _ (hp.map _)

/-- C10: the training/validation check is invariant under any
permutation of the rows of the uploaded table: shape, column names and
the identifier value set do not change, so a permuted table produces
exactly the same findings and outcome as the original. -/
theorem dims_check_perm_invariant (df reference_df : DataFrame) (mode : String)
    (rows2 : List (List Cell)) (hp : rows2.Perm df.rows) :
    check_file_dimensions_and_columns (DataFrame.mk df.columns rows2) reference_df mode =
      check_file_dimensions_and_columns df reference_df mode := by
  have hshape : (DataFrame.mk df.columns rows2).shape = df.shape := by
    unfold DataFrame.shape
    rw [hp.length_eq]
  have himg : (DataFrame.mk df.columns rows2).imageSet? = df.imageSet? := by
    rw [show df = DataFrame.mk df.columns df.rows from rfl] at hp ⊢
    exact imageSet?_perm df.columns df.rows rows2 hp
  unfold check_file_dimensions_and_columns
  rw [hshape, himg]

/-- Witness for C10: swapping the two rows of a concrete table gives
the same result as the original order. -/
theorem dims_check_perm_invariant_witness :
    check_file_dimensions_and_columns
        (DataFrame.mk ["image_path"] [[some "b.jpg"], [some "a.jpg"]])
        (DataFrame.mk ["image_path"] [[some "a.jpg"], [some "b.jpg"]]) "training" =
      check_file_dimensions_and_columns
        (DataFrame.mk ["image_path"] [[some "a.jpg"], [some "b.jpg"]])
        (DataFrame.mk ["image_path"] [[some "a.jpg"], [some "b.jpg"]]) "training" :=
  dims_check_perm_invariant
    (DataFrame.mk ["image_path"] [[some "a.jpg"], [some "b.jpg"]])
    (DataFrame.mk ["image_path"] [[some "a.jpg"], [some "b.jpg"]]) "training"
    [[some "b.jpg"], [some "a.jpg"]] (by decide)

/-- When the difference set contains no null, the join never raises and
the emitted findings are nothing, the generic message, or the listing. -/
theorem diffFindings_ok_of_not_none (k : DiffKind) (s : Finset Cell)
    (h : (none : Cell) ∉ s) :
    diffFindings k s = .ok [] ∨
    diffFindings k s = .ok [.tooMany k] ∨
    diffFindings k s = .ok [.imagesListed k s] := by
  unfold diffFindings
  by_cases h1 : 10 < s.card
  · right; left; simp [h1]
  · by_cases h2 : s = ∅
    · left; simp [h1, h2]
    · right; right; simp [h1, h2, h]

/-- Test-mode table with the identifier column present but a null
identifier cell and no predicted_class column. -/
def df_nan : DataFrame := ⟨["image_path"], [[none]]⟩

/-- Reference set for df_nan. -/
def refD : Finset String := {"a.jpg"}

/-- C9 counterexample: with a null identifier cell and a small extra
set, the join of the extra identifiers raises before the column check,
so the missing predicted_class column is never reported and the raise
is not at the categorical-validity check. -/
theorem null_identifier_raises_before_columns :
    check_file df_nan refD EXPECTED_COLUMNS =
      ([Finding.imagesListed DiffKind.missing {some "a.jpg"}], Outcome.raised PyError.typeError) ∧
    "predicted_class" ∉ df_nan.columns := by
  refine ⟨by decide, by decide⟩

/-- A finding different from x is not in the conditional singleton. -/
theorem notMem_ite_nil_singleton {g x : Finding} (P : Prop) [Decidable P] (h : g ≠ x) :
    g ∉ (if P then ([] : List Finding) else [x]) := by
  split <;> simp [h]

/-- A finding that is none of the column, null or difference findings is
absent from the list accumulated before the predicted_class access. -/
theorem notMem_run_parts {g : Finding} (lm le : List Finding) (mc ec : List String) (b : Bool)
    (hg1 : g ∉ lm) (hg2 : g ∉ le)
    (hg3 : ∀ cols, g ≠ Finding.missingColumns cols)
    (hg4 : ∀ cols, g ≠ Finding.extraColumns cols)
    (hg5 : g ≠ Finding.missingValues) :
    g ∉ (lm ++ le ++
      ((if mc = [] then [] else [Finding.missingColumns mc]) ++
       (if ec = [] then [] else [Finding.extraColumns ec])) ++
      (if b = true then [Finding.missingValues] else [])) := by
  intro hmem
  rcases List.mem_append.mp hmem with hmem | hmem
  rcases List.mem_append.mp hmem with hmem | hmem
  rcases List.mem_append.mp hmem with hmem | hmem
  pick_goal 3
  rcases List.mem_append.mp hmem with hmem | hmem
  · exact notMem_ite_nil_singleton _ (hg3 _) hmem
  · exact notMem_ite_nil_singleton _ (hg4 _) hmem
  · exact hg1 hmem
  · exact hg2 hmem
  · revert hmem
    split <;> simp [hg5]

/-- C9 (amended): a test-mode table whose identifier column is present
with no null cell but which lacks the predicted_class column gets
predicted_class reported among the missing columns and then raises at
the categorical-validity access of that column, so the check sequence
does not complete and no pass/fail summary finding is produced. -/
theorem missing_predicted_class_raises (df : DataFrame) (reference_images : Finset String)
    (imgs : List Cell)
    (himg : df.col? "image_path" = some imgs)
    (hsome : (none : Cell) ∉ imgs)
    (hpc : "predicted_class" ∉ df.columns) :
    ∃ fs, check_file df reference_images EXPECTED_COLUMNS =
        (fs, Outcome.raised (PyError.keyError "predicted_class")) ∧
      Finding.missingColumns (EXPECTED_COLUMNS.filter (fun c => decide (c ∉ df.columns))) ∈ fs ∧
      "predicted_class" ∈ EXPECTED_COLUMNS.filter (fun c => decide (c ∉ df.columns)) ∧
      Finding.allPassed ∉ fs ∧ Finding.notAllPassed ∉ fs := by
  have himgSet : df.imageSet? = some imgs.toFinset := by
    unfold DataFrame.imageSet?
    rw [himg]
    rfl
  have hpcCol : df.col? "predicted_class" = none := by
    unfold DataFrame.col?
    rw [colIndex?_eq_none hpc]
    rfl
  have hmM : (none : Cell) ∉ (compareSets (Finset.image some reference_images) imgs.toFinset).1 := by
    intro hmem
    rcases Finset.mem_image.mp (Finset.mem_sdiff.mp hmem).1 with ⟨x, _, hx⟩
    exact Option.noConfusion hx
  have hmE : (none : Cell) ∉ (compareSets (Finset.image some reference_images) imgs.toFinset).2 := by
    intro hmem
    exact hsome (List.mem_toFinset.mp (Finset.mem_sdiff.mp hmem).1)
  have hrun : ∀ lm le,
      diffFindings .missing (compareSets (Finset.image some reference_images) imgs.toFinset).1 =
        .ok lm →
      diffFindings .extra (compareSets (Finset.image some reference_images) imgs.toFinset).2 =
        .ok le →
      check_file df reference_images EXPECTED_COLUMNS =
        (lm ++ le ++
          ((if EXPECTED_COLUMNS.filter (fun c => decide (c ∉ df.columns)) = [] then []
            else [Finding.missingColumns
                    (EXPECTED_COLUMNS.filter (fun c => decide (c ∉ df.columns)))]) ++
           (if df.columns.filter (fun c => decide (c ∉ EXPECTED_COLUMNS)) = [] then []
            else [Finding.extraColumns
                    (df.columns.filter (fun c => decide (c ∉ EXPECTED_COLUMNS)))])) ++
          (if df.anyNull then [Finding.missingValues] else []),
         Outcome.raised (PyError.keyError "predicted_class")) := by
    intro lm le hlm hle
    unfold check_file
    rw [himgSet]
    dsimp only
    rw [hlm, hle, hpcCol]
  have hpcm : "predicted_class" ∈ EXPECTED_COLUMNS.filter (fun c => decide (c ∉ df.columns)) :=
    List.mem_filter.mpr ⟨by decide, decide_eq_true hpc⟩
  have hne : EXPECTED_COLUMNS.filter (fun c => decide (c ∉ df.columns)) ≠ [] := by
    intro h0
    rw [h0] at hpcm
    exact (List.not_mem_nil _) hpcm
  rcases diffFindings_ok_of_not_none .missing _ hmM with h1|h1|h1 <;>
    rcases diffFindings_ok_of_not_none .extra _ hmE with h2|h2|h2 <;>
    refine ⟨_, hrun _ _ h1 h2, ?_, hpcm, ?_, ?_⟩ <;>
    first
      | (refine List.mem_append_left _ (List.mem_append_right _ (List.mem_append_left _ ?_))
         rw [if_neg hne]
         exact List.mem_singleton_self _)
      | (apply notMem_run_parts <;> simp)

/-- Witness for the C9 amended theorem at a concrete one-column table. -/
theorem missing_predicted_class_raises_witness :
    ∃ fs, check_file (DataFrame.mk ["image_path"] [[some "a.jpg"]]) refA EXPECTED_COLUMNS =
        (fs, Outcome.raised (PyError.keyError "predicted_class")) ∧
      Finding.missingColumns (EXPECTED_COLUMNS.filter
        (fun c => decide (c ∉ (DataFrame.mk ["image_path"] [[some "a.jpg"]]).columns))) ∈ fs ∧
      "predicted_class" ∈ EXPECTED_COLUMNS.filter
        (fun c => decide (c ∉ (DataFrame.mk ["image_path"] [[some "a.jpg"]]).columns)) ∧
      Finding.allPassed ∉ fs ∧ Finding.notAllPassed ∉ fs :=
  missing_predicted_class_raises (DataFrame.mk ["image_path"] [[some "a.jpg"]]) refA
    [some "a.jpg"] (by decide) (by decide) (by decide)
